import Mathlib

/-!
Verification of the conversation-creation orchestration flow
(`create_new_conversation` in
`openhands/server/services/conversation_service.py`).

The asynchronous Python function is embedded as a pure Lean function over a
`World` record that supplies the external collaborators (settings store,
environment variables, conversation store, experiment manager, agent-loop
manager) and the freshly generated uuid.  Fallible collaborator calls return
`Except`.  Besides the returned value, the embedding produces the ordered
trace of observable collaborator calls (existence check, variant assignment,
metadata write, launch); logging is external to the modelled core and is not
traced.
-/

namespace ConversationService

/-! ### Python primitives used by the source -/

/-- Python truthiness of `str | None`: `None` and `''` are falsy. -/
def pyTruthyStr : Option String → Bool
  | none => false
  | some s => !s.data.isEmpty

/-- Python truthiness of `list | None`: `None` and `[]` are falsy. -/
def pyTruthyList : Option (List String) → Bool
  | none => false
  | some l => !l.isEmpty

/-- Python `str.isspace`: non-empty and every character is whitespace. -/
def pyIsSpace (s : String) : Bool :=
  !s.data.isEmpty && s.data.all Char.isWhitespace

/-- pydantic `SecretStr`: a wrapper around the secret string value
(`get_secret_value` is the `secret_value` projection). -/
structure SecretStr where
  secret_value : String
deriving DecidableEq, Repr

/-- `os.getenv(k) or d` — the fallback is used when the variable is unset
or set to the empty string (Python truthiness of the `or` chain). -/
def getenvOr (v : Option String) (d : String) : String :=
  match v with
  | some s => if s.data.isEmpty then d else s
  | none => d

/-- `os.getenv(k, d)` — the default is used only when the variable is unset
(an empty-string value is returned as is). -/
def getenvD (v : Option String) (d : String) : String :=
  v.getD d

/-! ### Data model -/

/-- `ConversationTrigger` enum
(`openhands.storage.data_models.conversation_metadata`); the source uses
`GUI` as the default. -/
inductive ConversationTrigger where
  | gui
  | resolver
  | suggested_task
deriving DecidableEq, Repr

/-- `ProviderType` enum (`openhands.integrations.service_types`); an opaque
pass-through value in this flow. -/
inductive ProviderType where
  | github
  | gitlab
  | bitbucket
deriving DecidableEq, Repr

/-- Modelled from the spec: the `Settings` data model
(`openhands.storage.data_models.settings`) is not under `src/`; the spec's
EffectiveSettings lists language, agent type, max iteration count, LLM model
identifier, LLM API key (secret, possibly absent), LLM base URL, confirmation
mode flag, condenser flag and notification flags, which are exactly the
fields the source reads or constructs. -/
structure Settings where
  language : String
  agent : String
  max_iterations : Nat
  llm_model : String
  llm_api_key : Option SecretStr
  llm_base_url : String
  confirmation_mode : Bool
  enable_default_condenser : Bool
  enable_sound_notifications : Bool
  enable_proactive_conversation_starters : Bool
deriving DecidableEq, Repr

/-- The environment variables read by the source (lines 80, 84, 86, 88). -/
structure Env where
  llm_api_key_var : Option String
  openrouter_api_key_var : Option String
  default_agent_var : Option String
  llm_model_var : Option String
  llm_base_url_var : Option String
deriving DecidableEq, Repr

/-- The per-call input of `create_new_conversation` (its parameter list).
Provider tokens and custom secrets are opaque pass-through values, modelled
as strings. -/
structure CreateRequest where
  user_id : Option String
  git_provider_tokens : Option String
  custom_secrets : Option String
  selected_repository : Option String
  selected_branch : Option String
  initial_user_msg : Option String
  image_urls : Option (List String)
  replay_json : Option String
  conversation_instructions : Option String
  conversation_trigger : ConversationTrigger
  attach_convo_id : Bool
  git_provider : Option ProviderType
  conversation_id : Option String
deriving DecidableEq, Repr

/-- Modelled from the spec: `ConversationInitData`
(`openhands.server.session.conversation_init_data`) is not under `src/`; it
is the settings fields plus the six per-call injected fields that the source
assigns into `session_init_args` (lines 99-104). -/
structure ConversationInitData where
  language : String
  agent : String
  max_iterations : Nat
  llm_model : String
  llm_api_key : Option SecretStr
  llm_base_url : String
  confirmation_mode : Bool
  enable_default_condenser : Bool
  enable_sound_notifications : Bool
  enable_proactive_conversation_starters : Bool
  git_provider_tokens : Option String
  selected_repository : Option String
  custom_secrets : Option String
  selected_branch : Option String
  git_provider : Option ProviderType
  conversation_instructions : Option String
deriving DecidableEq, Repr

/-- Modelled from the spec: `ConversationMetadata`
(`openhands.storage.data_models.conversation_metadata`) is not under `src/`;
the fields are the keyword arguments the source passes at lines 128-137. -/
structure ConversationMetadata where
  trigger : ConversationTrigger
  conversation_id : String
  title : String
  user_id : Option String
  selected_repository : Option String
  selected_branch : Option String
  git_provider : Option ProviderType
  llm_model : String
deriving DecidableEq, Repr

/-- `MessageAction(content=..., image_urls=...)` as constructed at
lines 146-149. -/
structure MessageAction where
  content : String
  image_urls : List String
deriving DecidableEq, Repr

/-- `AgentLoopInfo`: the opaque handle returned by the agent-loop manager;
only its `conversation_id` field is read by the source (line 161). -/
structure AgentLoopInfo where
  conversation_id : String
deriving DecidableEq, Repr

/-- The errors this flow can surface: `LLMAuthenticationError` (raised at
line 67) and errors propagated unchanged from the conversation store. -/
inductive CreateError where
  | llmAuthenticationError (msg : String)
  | storeError (err : String)
deriving DecidableEq, Repr

/-- Observable collaborator calls, in the order the source makes them. -/
inductive Event where
  | existsChecked (conversation_id : String)
  | variantAssigned (user_id : Option String) (conversation_id : String)
  | metadataSaved (meta : ConversationMetadata)
  | launched (conversation_id : String) (data : ConversationInitData)
      (user_id : Option String) (msg : Option MessageAction)
      (replay : Option String)
deriving DecidableEq, Repr

/-- The external collaborators and nondeterministic inputs of one call:
the settings store's answer, the process environment, the uuid that
`uuid.uuid4().hex` would produce, the conversation store's behaviour
(existence check and metadata write, each of which may fail), the experiment
manager's `run_conversation_variant_test`, and the conversation manager's
`maybe_start_agent_loop`. -/
structure World where
  stored_settings : Option Settings
  env : Env
  generated_id : String
  exists_result : String → Except String Bool
  save_result : ConversationMetadata → Except String Unit
  variant : Option String → String → ConversationInitData → ConversationInitData
  launch : String → ConversationInitData → Option String →
      Option MessageAction → Option String → AgentLoopInfo

/-! ### The orchestration flow, step by step -/

/-- Line 80: `os.getenv('LLM_API_KEY') or os.getenv('OPENROUTER_API_KEY')
or 'mock-api-key-for-testing'`. -/
def anonymous_api_key (e : Env) : String :=
  getenvOr e.llm_api_key_var
    (getenvOr e.openrouter_api_key_var "mock-api-key-for-testing")

/-- Lines 82-93: the default `Settings` synthesized for anonymous or
unconfigured users. -/
def default_settings (e : Env) : Settings :=
  { language := "en"
    agent := getenvD e.default_agent_var "CodeActAgent"
    max_iterations := 100
    llm_model := getenvD e.llm_model_var "anthropic/claude-3-haiku-20240307"
    llm_api_key := some ⟨anonymous_api_key e⟩
    llm_base_url := getenvD e.llm_base_url_var "https://openrouter.ai/api/v1"
    confirmation_mode := false
    enable_default_condenser := true
    enable_sound_notifications := false
    enable_proactive_conversation_starters := true }

/-- Lines 62-65: `not settings.llm_api_key or
settings.llm_api_key.get_secret_value().isspace()`.  A missing key and an
empty `SecretStr` are falsy in Python, so both trigger the first disjunct. -/
def api_key_invalid : Option SecretStr → Bool
  | none => true
  | some s => s.secret_value.data.isEmpty || pyIsSpace s.secret_value

/-- The message of the `LLMAuthenticationError` raised at lines 67-69. -/
def auth_error_message : String :=
  "Error authenticating with the LLM provider. Please check your API key"

/-- Lines 57-97: resolve the effective settings.  Stored settings are
validated for a usable API key; absent stored settings fall back to
`default_settings`. -/
def resolve_settings (w : World) : Except CreateError Settings :=
  match w.stored_settings with
  | some settings =>
      if api_key_invalid settings.llm_api_key then
        .error (.llmAuthenticationError auth_error_message)
      else
        .ok settings
  | none => .ok (default_settings w.env)

/-- Lines 59 and 97-105: merge the resolved settings dict with the six
per-call fields; the per-call assignments at lines 99-104 overwrite
unconditionally, so they win over any same-named settings field. -/
def build_init_data (s : Settings) (r : CreateRequest) : ConversationInitData :=
  { language := s.language
    agent := s.agent
    max_iterations := s.max_iterations
    llm_model := s.llm_model
    llm_api_key := s.llm_api_key
    llm_base_url := s.llm_base_url
    confirmation_mode := s.confirmation_mode
    enable_default_condenser := s.enable_default_condenser
    enable_sound_notifications := s.enable_sound_notifications
    enable_proactive_conversation_starters :=
      s.enable_proactive_conversation_starters
    git_provider_tokens := r.git_provider_tokens
    selected_repository := r.selected_repository
    custom_secrets := r.custom_secrets
    selected_branch := r.selected_branch
    git_provider := r.git_provider
    conversation_instructions := r.conversation_instructions }

/-- Lines 113-114: the caller-supplied id is used verbatim; only when none
is supplied is the generated uuid used. -/
def resolved_id (w : World) (r : CreateRequest) : String :=
  match r.conversation_id with
  | some i => i
  | none => w.generated_id

/-- Modelled from the spec: `get_default_conversation_title`
(`openhands.utils.conversation_summary`) is not under `src/`; the spec says
only that a default title is derivable from the conversation id. -/
def get_default_conversation_title (conversation_id : String) : String :=
  "Conversation " ++ conversation_id

/-- Lines 144-149: a `MessageAction` is built only when the text or the
image list is truthy; `initial_user_msg or ''` and `image_urls or []`
give the defaults for the missing half. -/
def initial_message_action (r : CreateRequest) : Option MessageAction :=
  if pyTruthyStr r.initial_user_msg || pyTruthyList r.image_urls then
    some { content := r.initial_user_msg.getD ""
           image_urls := r.image_urls.getD [] }
  else
    none

/-- Lines 124 and 127-138: the `ConversationMetadata` record constructed for
a new conversation, from the variant-adjusted init data `d`. -/
def metadata_of (w : World) (r : CreateRequest) (d : ConversationInitData) :
    ConversationMetadata :=
  { trigger := r.conversation_trigger
    conversation_id := resolved_id w r
    title := get_default_conversation_title (resolved_id w r)
    user_id := r.user_id
    selected_repository := r.selected_repository
    selected_branch := r.selected_branch
    git_provider := r.git_provider
    llm_model := d.llm_model }

/-- The whole of `create_new_conversation` (lines 29-162): resolve settings
(raising `LLMAuthenticationError` on a blank stored key), build the init
data, resolve the conversation id, check existence; for a new id run the
experiment variant test and save metadata; finally start the agent loop.
Store failures propagate unchanged and abort the rest of the flow.  The
second component is the ordered trace of collaborator calls. -/
def create_new_conversation (w : World) (r : CreateRequest) :
    Except CreateError AgentLoopInfo × List Event :=
  match resolve_settings w with
  | .error e => (.error e, [])
  | .ok settings =>
    match w.exists_result (resolved_id w r) with
    | .error e =>
        (.error (.storeError e), [.existsChecked (resolved_id w r)])
    | .ok true =>
        (.ok (w.launch (resolved_id w r) (build_init_data settings r)
            r.user_id (initial_message_action r) r.replay_json),
         [.existsChecked (resolved_id w r),
          .launched (resolved_id w r) (build_init_data settings r) r.user_id
            (initial_message_action r) r.replay_json])
    | .ok false =>
        match w.save_result (metadata_of w r
            (w.variant r.user_id (resolved_id w r)
              (build_init_data settings r))) with
        | .error e =>
            (.error (.storeError e),
             [.existsChecked (resolved_id w r),
              .variantAssigned r.user_id (resolved_id w r),
              .metadataSaved (metadata_of w r
                (w.variant r.user_id (resolved_id w r)
                  (build_init_data settings r)))])
        | .ok _ =>
            (.ok (w.launch (resolved_id w r)
                (w.variant r.user_id (resolved_id w r)
                  (build_init_data settings r))
                r.user_id (initial_message_action r) r.replay_json),
             [.existsChecked (resolved_id w r),
              .variantAssigned r.user_id (resolved_id w r),
              .metadataSaved (metadata_of w r
                (w.variant r.user_id (resolved_id w r)
                  (build_init_data settings r))),
              .launched (resolved_id w r)
                (w.variant r.user_id (resolved_id w r)
                  (build_init_data settings r))
                r.user_id (initial_message_action r) r.replay_json])

/-! ### Concrete instances used by the witnesses -/

/-- An environment with no variables set. -/
def envEmpty : Env := ⟨none, none, none, none, none⟩

/-- Stored settings with a usable API key. -/
def settingsValid : Settings :=
  { language := "en"
    agent := "CodeActAgent"
    max_iterations := 100
    llm_model := "some-model"
    llm_api_key := some ⟨"sk-key"⟩
    llm_base_url := "https://example.invalid"
    confirmation_mode := false
    enable_default_condenser := true
    enable_sound_notifications := false
    enable_proactive_conversation_starters := true }

/-- Stored settings whose API key is whitespace-only. -/
def settingsBlankKey : Settings :=
  { settingsValid with llm_api_key := some ⟨" "⟩ }

/-- A world where the conversation store says the id is new and every
collaborator succeeds; the variant test is the identity. -/
def worldNew : World :=
  { stored_settings := some settingsValid
    env := envEmpty
    generated_id := "generated-uuid-hex"
    exists_result := fun _ => .ok false
    save_result := fun _ => .ok ()
    variant := fun _ _ d => d
    launch := fun i _ _ _ _ => ⟨i⟩ }

/-- Like `worldNew`, but the id already exists. -/
def worldExisting : World := { worldNew with exists_result := fun _ => .ok true }

/-- Like `worldNew`, but the stored API key is whitespace-only. -/
def worldBlank : World :=
  { worldNew with stored_settings := some settingsBlankKey }

/-- Blank stored key and an already-existing conversation id. -/
def worldBlankExisting : World :=
  { worldBlank with exists_result := fun _ => .ok true }

/-- No stored settings (anonymous user). -/
def worldAnon : World := { worldNew with stored_settings := none }

/-- The existence check fails. -/
def worldExistsErr : World :=
  { worldNew with exists_result := fun _ => .error "exists-boom" }

/-- The metadata write fails. -/
def worldSaveErr : World :=
  { worldNew with save_result := fun _ => .error "save-boom" }

/-- A baseline request with a caller-supplied conversation id and no
initial message. -/
def reqBase : CreateRequest :=
  { user_id := some "u1"
    git_provider_tokens := none
    custom_secrets := none
    selected_repository := some "org/repo"
    selected_branch := none
    initial_user_msg := none
    image_urls := none
    replay_json := none
    conversation_instructions := none
    conversation_trigger := .gui
    attach_convo_id := false
    git_provider := none
    conversation_id := some "cid-1" }

/-- A request with images but no text. -/
def reqImgOnly : CreateRequest := { reqBase with image_urls := some ["img-1"] }

/-- A request with an initial text message. -/
def reqMsg : CreateRequest := { reqBase with initial_user_msg := some "hi" }

/-- A request with no caller-supplied conversation id. -/
def reqNoId : CreateRequest := { reqBase with conversation_id := none }

/-! ### Shape lemmas about the trace -/

/-- Every `launched` event in the trace carries the resolved id, the
request's user id, the constructed initial message and the replay payload. -/
theorem launched_event_mem (w : World) (r : CreateRequest) (i : String)
    (d : ConversationInitData) (u : Option String) (m : Option MessageAction)
    (rep : Option String)
    (h : Event.launched i d u m rep ∈ (create_new_conversation w r).2) :
    i = resolved_id w r ∧ u = r.user_id ∧ m = initial_message_action r ∧
      rep = r.replay_json := by
  unfold create_new_conversation at h
  split at h
  · simp at h
  · split at h
    · simp at h
    · simp at h
      tauto
    · split at h
      · simp at h
      · simp at h
        tauto

/-- Every `existsChecked` event in the trace carries the resolved id. -/
theorem exists_event_mem (w : World) (r : CreateRequest) (j : String)
    (h : Event.existsChecked j ∈ (create_new_conversation w r).2) :
    j = resolved_id w r := by
  unfold create_new_conversation at h
  split at h
  · simp at h
  · split at h
    · simp at h
      exact h
    · simp at h
      tauto
    · split at h
      · simp at h
        tauto
      · simp at h
        tauto

/-- Every `metadataSaved` event in the trace carries the record built by
`metadata_of`, whose conversation id is the resolved id. -/
theorem metadata_event_mem (w : World) (r : CreateRequest)
    (m : ConversationMetadata)
    (h : Event.metadataSaved m ∈ (create_new_conversation w r).2) :
    m.conversation_id = resolved_id w r := by
  unfold create_new_conversation at h
  split at h
  · simp at h
  · split at h
    · simp at h
    · simp at h
    · split at h
      · simp at h
        subst h
        rfl
      · simp at h
        subst h
        rfl

/-! ### The claims -/

/-- C1: whenever stored settings are resolved and their LLM API key is
absent, empty or whitespace-only, `create_new_conversation` fails with
`LLMAuthenticationError` and its trace is empty — no existence check, no
variant assignment, no metadata write and no launch happen, so the engine
is never started with a blank stored key. -/
theorem blank_stored_key_fails_before_any_effect
    (w : World) (r : CreateRequest) (s : Settings)
    (hs : w.stored_settings = some s)
    (hk : api_key_invalid s.llm_api_key = true) :
    create_new_conversation w r =
      (.error (.llmAuthenticationError auth_error_message), []) := by
  unfold create_new_conversation resolve_settings
  rw [hs]
  simp [hk]

/-- Witness for C1: a concrete world whose stored key is `" "`. -/
theorem blank_stored_key_fails_before_any_effect_witness :
    create_new_conversation worldBlank reqBase =
      (.error (.llmAuthenticationError auth_error_message), []) :=
  blank_stored_key_fails_before_any_effect worldBlank reqBase settingsBlankKey
    rfl (by decide)

/-- C2: when the existence check answers `true`, the call performs no
variant assignment and no metadata write and proceeds straight to the
launcher: the trace is exactly the existence check followed by the launch,
and the returned handle is the launcher's result.  The function is pure in
the collaborators, so any number of repetitions behaves identically. -/
theorem existing_id_skips_variant_and_persist
    (w : World) (r : CreateRequest) (s : Settings)
    (hres : resolve_settings w = .ok s)
    (hex : w.exists_result (resolved_id w r) = .ok true) :
    create_new_conversation w r =
      (.ok (w.launch (resolved_id w r) (build_init_data s r) r.user_id
          (initial_message_action r) r.replay_json),
       [.existsChecked (resolved_id w r),
        .launched (resolved_id w r) (build_init_data s r) r.user_id
          (initial_message_action r) r.replay_json]) ∧
    (∀ u i, Event.variantAssigned u i ∉ (create_new_conversation w r).2) ∧
    (∀ m, Event.metadataSaved m ∉ (create_new_conversation w r).2) := by
  unfold create_new_conversation
  simp [hres, hex]

/-- Witness for C2: a concrete world whose store reports the id as
existing. -/
theorem existing_id_skips_variant_and_persist_witness :
    (∀ m, Event.metadataSaved m ∉
        (create_new_conversation worldExisting reqBase).2) ∧
    (∀ u i, Event.variantAssigned u i ∉
        (create_new_conversation worldExisting reqBase).2) :=
  ⟨(existing_id_skips_variant_and_persist worldExisting reqBase settingsValid
      rfl rfl).2.2,
   (existing_id_skips_variant_and_persist worldExisting reqBase settingsValid
      rfl rfl).2.1⟩

/-- C3: with no stored settings, resolution succeeds with the synthesized
defaults (language `en`, agent from `DEFAULT_AGENT` defaulting to
`CodeActAgent`, 100 iterations, model and base URL from the environment
with hardcoded fallbacks, the fallback API key chain, confirmation mode
off, condenser on, sound notifications off, proactive starters on), the
call never raises `LLMAuthenticationError`, and every per-call override
field of the effective init data equals the request's value, taking strict
priority over the defaults. -/
theorem anonymous_defaults_and_override_priority
    (w : World) (r : CreateRequest)
    (hs : w.stored_settings = none) :
    resolve_settings w = .ok (default_settings w.env) ∧
    (∀ m, (create_new_conversation w r).1 ≠
        .error (.llmAuthenticationError m)) ∧
    default_settings w.env =
      { language := "en"
        agent := getenvD w.env.default_agent_var "CodeActAgent"
        max_iterations := 100
        llm_model := getenvD w.env.llm_model_var
          "anthropic/claude-3-haiku-20240307"
        llm_api_key := some ⟨anonymous_api_key w.env⟩
        llm_base_url := getenvD w.env.llm_base_url_var
          "https://openrouter.ai/api/v1"
        confirmation_mode := false
        enable_default_condenser := true
        enable_sound_notifications := false
        enable_proactive_conversation_starters := true } ∧
    (build_init_data (default_settings w.env) r).git_provider_tokens =
      r.git_provider_tokens ∧
    (build_init_data (default_settings w.env) r).custom_secrets =
      r.custom_secrets ∧
    (build_init_data (default_settings w.env) r).selected_repository =
      r.selected_repository ∧
    (build_init_data (default_settings w.env) r).selected_branch =
      r.selected_branch ∧
    (build_init_data (default_settings w.env) r).git_provider =
      r.git_provider ∧
    (build_init_data (default_settings w.env) r).conversation_instructions =
      r.conversation_instructions := by
  have hres : resolve_settings w = .ok (default_settings w.env) := by
    unfold resolve_settings
    rw [hs]
  refine ⟨hres, ?_, rfl, rfl, rfl, rfl, rfl, rfl, rfl⟩
  intro m
  unfold create_new_conversation
  simp only [hres]
  split
  · simp
  · simp
  · split <;> simp

/-- Witness for C3: an anonymous world; the call raises no authentication
error and the request's repository override survives the merge. -/
theorem anonymous_defaults_and_override_priority_witness :
    (create_new_conversation worldAnon reqBase).1 ≠
        .error (.llmAuthenticationError auth_error_message) ∧
    ConversationInitData.selected_repository
        (build_init_data (default_settings worldAnon.env) reqBase) =
      some "org/repo" :=
  ⟨(anonymous_defaults_and_override_priority worldAnon reqBase rfl).2.1
      auth_error_message,
   (anonymous_defaults_and_override_priority worldAnon reqBase
      rfl).2.2.2.2.2.1⟩

/-- C4: for a new conversation the variant test runs before the metadata
write (it appears earlier in the trace), and the persisted record carries
the conversation id, the trigger, the default title derived from the id,
the user id, the selected repository and branch, the provider kind, and
the `llm_model` of the variant-adjusted init data. -/
theorem new_id_variant_before_persist
    (w : World) (r : CreateRequest) (s : Settings)
    (hres : resolve_settings w = .ok s)
    (hex : w.exists_result (resolved_id w r) = .ok false)
    (hsave : w.save_result (metadata_of w r (w.variant r.user_id
        (resolved_id w r) (build_init_data s r))) = .ok ()) :
    (create_new_conversation w r).2 =
      [.existsChecked (resolved_id w r),
       .variantAssigned r.user_id (resolved_id w r),
       .metadataSaved (metadata_of w r (w.variant r.user_id (resolved_id w r)
          (build_init_data s r))),
       .launched (resolved_id w r)
         (w.variant r.user_id (resolved_id w r) (build_init_data s r))
         r.user_id (initial_message_action r) r.replay_json] ∧
    metadata_of w r (w.variant r.user_id (resolved_id w r)
        (build_init_data s r)) =
      { trigger := r.conversation_trigger
        conversation_id := resolved_id w r
        title := get_default_conversation_title (resolved_id w r)
        user_id := r.user_id
        selected_repository := r.selected_repository
        selected_branch := r.selected_branch
        git_provider := r.git_provider
        llm_model := (w.variant r.user_id (resolved_id w r)
          (build_init_data s r)).llm_model } := by
  constructor
  · unfold create_new_conversation
    simp [hres, hex, hsave]
  · rfl

/-- Witness for C4: a concrete fresh-id world; the whole trace is as the
theorem states. -/
theorem new_id_variant_before_persist_witness :
    (create_new_conversation worldNew reqBase).2 =
      [.existsChecked (resolved_id worldNew reqBase),
       .variantAssigned reqBase.user_id (resolved_id worldNew reqBase),
       .metadataSaved (metadata_of worldNew reqBase
          (worldNew.variant reqBase.user_id (resolved_id worldNew reqBase)
            (build_init_data settingsValid reqBase))),
       .launched (resolved_id worldNew reqBase)
         (worldNew.variant reqBase.user_id (resolved_id worldNew reqBase)
           (build_init_data settingsValid reqBase))
         reqBase.user_id (initial_message_action reqBase)
         reqBase.replay_json] :=
  (new_id_variant_before_persist worldNew reqBase settingsValid
    rfl rfl rfl).1

/-- C5: a failing existence check, or a failing metadata write, propagates
its error to the caller unchanged (as that same store error) and the agent
loop is never launched for that request. -/
theorem store_error_propagates_and_blocks_launch
    (w : World) (r : CreateRequest) (s : Settings) (e : String)
    (hres : resolve_settings w = .ok s)
    (hfail : w.exists_result (resolved_id w r) = .error e ∨
      (w.exists_result (resolved_id w r) = .ok false ∧
        w.save_result (metadata_of w r (w.variant r.user_id (resolved_id w r)
          (build_init_data s r))) = .error e)) :
    (create_new_conversation w r).1 = .error (.storeError e) ∧
    (∀ i d u m rep, Event.launched i d u m rep ∉
        (create_new_conversation w r).2) := by
  rcases hfail with hex | ⟨hex, hsave⟩
  · unfold create_new_conversation
    simp [hres, hex]
  · unfold create_new_conversation
    simp [hres, hex, hsave]

/-- Witness for C5: both failure points at concrete worlds — a failing
existence check and a failing metadata write. -/
theorem store_error_propagates_and_blocks_launch_witness :
    (create_new_conversation worldExistsErr reqBase).1 =
        .error (.storeError "exists-boom") ∧
    (create_new_conversation worldSaveErr reqBase).1 =
        .error (.storeError "save-boom") :=
  ⟨(store_error_propagates_and_blocks_launch worldExistsErr reqBase
      settingsValid "exists-boom" rfl (Or.inl rfl)).1,
   (store_error_propagates_and_blocks_launch worldSaveErr reqBase
      settingsValid "save-boom" rfl (Or.inr ⟨rfl, rfl⟩)).1⟩

/-- C6: no initial message object is built exactly when both the text and
the image list are empty or absent; when either is non-empty, the single
message built carries that text (defaulting to `""`) and those images
(defaulting to `[]`); and whatever the launcher receives is exactly this
object. -/
theorem initial_message_iff_nonempty_input (w : World) (r : CreateRequest) :
    (initial_message_action r = none ↔
      pyTruthyStr r.initial_user_msg = false ∧
        pyTruthyList r.image_urls = false) ∧
    ((pyTruthyStr r.initial_user_msg = true ∨
        pyTruthyList r.image_urls = true) →
      initial_message_action r =
        some { content := r.initial_user_msg.getD ""
               image_urls := r.image_urls.getD [] }) ∧
    (∀ i d u m rep,
      Event.launched i d u m rep ∈ (create_new_conversation w r).2 →
        m = initial_message_action r) := by
  refine ⟨?_, ?_, ?_⟩
  · unfold initial_message_action
    rcases h1 : pyTruthyStr r.initial_user_msg <;>
      rcases h2 : pyTruthyList r.image_urls <;> simp
  · intro h
    unfold initial_message_action
    rcases h with h | h <;> simp [h]
  · intro i d u m rep hmem
    exact (launched_event_mem w r i d u m rep hmem).2.2.1

/-- Witness for C6: with text `"hi"` and no images a single message with
that text and an empty image list is built. -/
theorem initial_message_iff_nonempty_input_witness :
    initial_message_action reqMsg =
      some { content := "hi", image_urls := [] } :=
  (initial_message_iff_nonempty_input worldNew reqMsg).2.1
    (Or.inl (by decide))

/-- C7: a caller-supplied conversation id is used verbatim as the resolved
id, and every trace event — existence check, metadata write, launch —
carries exactly the resolved id; the generated uuid is used only when no
id was supplied. -/
theorem conversation_id_verbatim (w : World) (r : CreateRequest) :
    (∀ i, r.conversation_id = some i → resolved_id w r = i) ∧
    (r.conversation_id = none → resolved_id w r = w.generated_id) ∧
    (∀ j, Event.existsChecked j ∈ (create_new_conversation w r).2 →
      j = resolved_id w r) ∧
    (∀ m, Event.metadataSaved m ∈ (create_new_conversation w r).2 →
      m.conversation_id = resolved_id w r) ∧
    (∀ j d u msg rep,
      Event.launched j d u msg rep ∈ (create_new_conversation w r).2 →
        j = resolved_id w r) := by
  refine ⟨?_, ?_, ?_, ?_, ?_⟩
  · intro i hi
    unfold resolved_id
    rw [hi]
  · intro hi
    unfold resolved_id
    rw [hi]
  · intro j hj
    exact exists_event_mem w r j hj
  · intro m hm
    exact metadata_event_mem w r m hm
  · intro j d u msg rep hj
    exact (launched_event_mem w r j d u msg rep hj).1

/-- Witness for C7: the supplied id `"cid-1"` is used verbatim, and with no
supplied id the generated uuid is used. -/
theorem conversation_id_verbatim_witness :
    resolved_id worldNew reqBase = "cid-1" ∧
    resolved_id worldNew reqNoId = worldNew.generated_id :=
  ⟨(conversation_id_verbatim worldNew reqBase).1 "cid-1" rfl,
   (conversation_id_verbatim worldNew reqNoId).2.1 rfl⟩

/-- C8: two calls identical except for the deprecated
`attach_convo_id` flag are observationally identical — same returned value
or error and same collaborator trace; the flag only produces a log
warning, which is outside the modelled observable behaviour. -/
theorem attach_flag_no_observable_effect
    (w : World) (r : CreateRequest) (b : Bool) :
    create_new_conversation w { r with attach_convo_id := b } =
      create_new_conversation w r := rfl

/-- C9: the credential gate precedes the existence check, so even when the
supplied conversation id already exists in the store, stored settings with
a blank LLM API key make the call fail with `LLMAuthenticationError` and
an empty trace — an existing conversation is never re-attached with
invalid stored credentials. -/
theorem credential_gate_even_for_existing_id
    (w : World) (r : CreateRequest) (s : Settings)
    (hs : w.stored_settings = some s)
    (hk : api_key_invalid s.llm_api_key = true)
    (_hex : w.exists_result (resolved_id w r) = .ok true) :
    create_new_conversation w r =
      (.error (.llmAuthenticationError auth_error_message), []) := by
  unfold create_new_conversation resolve_settings
  rw [hs]
  simp [hk]

/-- Witness for C9: blank stored key and a store that reports the id as
existing. -/
theorem credential_gate_even_for_existing_id_witness :
    create_new_conversation worldBlankExisting reqBase =
      (.error (.llmAuthenticationError auth_error_message), []) :=
  credential_gate_even_for_existing_id worldBlankExisting reqBase
    settingsBlankKey rfl (by decide) rfl

/-- C10: with at least one image and absent or empty text, the message
built — and the one the launcher receives — has content `""` and exactly
the supplied image list: image-only input yields an empty-text message,
not an absent one. -/
theorem image_only_message_empty_content
    (w : World) (r : CreateRequest) (l : List String)
    (himg : r.image_urls = some l) (hne : l ≠ [])
    (hmsg : r.initial_user_msg = none ∨ r.initial_user_msg = some "") :
    initial_message_action r = some { content := "", image_urls := l } ∧
    (∀ i d u m rep,
      Event.launched i d u m rep ∈ (create_new_conversation w r).2 →
        m = some { content := "", image_urls := l }) := by
  have hma : initial_message_action r =
      some { content := "", image_urls := l } := by
    unfold initial_message_action
    cases l with
    | nil => exact absurd rfl hne
    | cons a t =>
        rcases hmsg with h | h <;>
          simp [pyTruthyStr, pyTruthyList, himg, h]
  refine ⟨hma, fun i d u m rep hmem => ?_⟩
  rw [(launched_event_mem w r i d u m rep hmem).2.2.1, hma]

/-- Witness for C10: one image and no text yield the empty-content
message. -/
theorem image_only_message_empty_content_witness :
    initial_message_action reqImgOnly =
      some { content := "", image_urls := ["img-1"] } :=
  (image_only_message_empty_content worldNew reqImgOnly ["img-1"]
    rfl (by decide) (Or.inl rfl)).1

end ConversationService
